import Mathlib

/-!
A verification development for the zeitec-verifier backend: a shallow
embedding, in Lean 4, of the CSV validation and deduplication pipeline
(`src/backend/utils.py`, `src/backend/config.py`,
`src/backend/issuance_routes.py`), together with theorems settling the
behavioural claims made about it.

Modelling conventions:
* Python machine integers and `hashlib` words are `Nat` with explicit
  `% 2^32` reduction where the algorithm wraps.
* A Python `float` cell is modelled by `PyFloat`: its exact numeric value
  (a rational, used by every comparison and sum the code performs) paired
  with its `str()` rendering (used only where the code stringifies it).
  No claim depends on rounding behaviour.
* A pandas `Timestamp` is its calendar fields; comparisons and
  differences go through seconds-since-epoch, exactly as pandas compares
  its internal epoch representation.
* A parsed dataframe is a header (list of column names) plus a list of
  rows; the validators consult a row field only when its column is
  present in the header, mirroring `df[col]` access.
-/

/-! ## Hash utilities (`utils.py`: `calculate_sha256`,
`calculate_audit_trail_id`)

`hashlib.sha256(..).hexdigest()` is embedded as a full SHA-256
implementation over byte lists (FIPS 180-4), producing the lowercase hex
digest exactly as `hexdigest` does. -/

/-- Reduce to a 32-bit word, the wrap-around of every SHA-256 operation. -/
def w32 (n : Nat) : Nat := n % 4294967296

/-- 32-bit right rotation. -/
def rotr32 (n x : Nat) : Nat := w32 ((x >>> n) ||| (x <<< (32 - n)))

/-- SHA-256 `Ch` function; 32-bit complement written as xor with the
all-ones word. -/
def shaCh (x y z : Nat) : Nat := (x &&& y) ^^^ ((x ^^^ 4294967295) &&& z)

/-- SHA-256 `Maj` function. -/
def shaMaj (x y z : Nat) : Nat := (x &&& y) ^^^ (x &&& z) ^^^ (y &&& z)

/-- SHA-256 big sigma-0. -/
def bsig0 (x : Nat) : Nat := rotr32 2 x ^^^ rotr32 13 x ^^^ rotr32 22 x

/-- SHA-256 big sigma-1. -/
def bsig1 (x : Nat) : Nat := rotr32 6 x ^^^ rotr32 11 x ^^^ rotr32 25 x

/-- SHA-256 small sigma-0. -/
def ssig0 (x : Nat) : Nat := rotr32 7 x ^^^ rotr32 18 x ^^^ (x >>> 3)

/-- SHA-256 small sigma-1. -/
def ssig1 (x : Nat) : Nat := rotr32 17 x ^^^ rotr32 19 x ^^^ (x >>> 10)

/-- The 64 SHA-256 round constants (FIPS 180-4 §4.2.2), written in
decimal. -/
def shaK : List Nat :=
  [1116352408, 1899447441, 3049323471,
   3921009573, 961987163, 1508970993,
   2453635748, 2870763221, 3624381080,
   310598401, 607225278, 1426881987,
   1925078388, 2162078206, 2614888103,
   3248222580, 3835390401, 4022224774,
   264347078, 604807628, 770255983,
   1249150122, 1555081692, 1996064986,
   2554220882, 2821834349, 2952996808,
   3210313671, 3336571891, 3584528711,
   113926993, 338241895, 666307205,
   773529912, 1294757372, 1396182291,
   1695183700, 1986661051, 2177026350,
   2456956037, 2730485921, 2820302411,
   3259730800, 3345764771, 3516065817,
   3600352804, 4094571909, 275423344,
   430227734, 506948616, 659060556,
   883997877, 958139571, 1322822218,
   1537002063, 1747873779, 1955562222,
   2024104815, 2227730452, 2361852424,
   2428436474, 2756734187, 3204031479,
   3329325298]

/-- The SHA-256 hash state: eight 32-bit working words. -/
structure Sha256State where
  a : Nat
  b : Nat
  c : Nat
  d : Nat
  e : Nat
  f : Nat
  g : Nat
  h : Nat
deriving Repr, DecidableEq

/-- The SHA-256 initial hash value (FIPS 180-4 §5.3.3), in decimal. -/
def sha256Init : Sha256State :=
  ⟨1779033703, 3144134277, 1013904242, 2773480762,
   1359893119, 2600822924, 528734635, 1541459225⟩

/-- SHA-256 padding: append a 0x80 byte, zero bytes to 56 mod 64, and the
big-endian 64-bit bit length. -/
def sha256Pad (msg : List Nat) : List Nat :=
  let len := msg.length
  let zeros := (119 - len % 64) % 64
  msg ++ [128] ++ List.replicate zeros 0 ++
    (List.range 8).map (fun i => ((len * 8) >>> (56 - 8 * i)) % 256)

/-- Split a byte list into 64-byte blocks. -/
def chunks64 (l : List Nat) : List (List Nat) :=
  if l.isEmpty then [] else l.take 64 :: chunks64 (l.drop 64)
termination_by l.length
decreasing_by
  simp only [List.length_drop]
  cases l with
  | nil => simp_all
  | cons x xs => simp only [List.length_cons]; omega

/-- The 64-word message schedule of one 64-byte block: 16 big-endian words
from the block, extended by the small-sigma recurrence. -/
def sha256Schedule (block : List Nat) : List Nat :=
  let w16 := (List.range 16).map (fun i =>
    block.getD (4 * i) 0 * 16777216 + block.getD (4 * i + 1) 0 * 65536 +
    block.getD (4 * i + 2) 0 * 256 + block.getD (4 * i + 3) 0)
  (List.range 48).foldl (fun w _ =>
    let n := w.length
    w ++ [w32 (ssig1 (w.getD (n - 2) 0) + w.getD (n - 7) 0 +
               ssig0 (w.getD (n - 15) 0) + w.getD (n - 16) 0)]) w16

/-- The SHA-256 compression function on one 64-byte block. -/
def sha256Compress (st : Sha256State) (block : List Nat) : Sha256State :=
  let w := sha256Schedule block
  let fin := (List.range 64).foldl (fun (s : Sha256State) i =>
    let t1 := w32 (s.h + bsig1 s.e + shaCh s.e s.f s.g +
                   shaK.getD i 0 + w.getD i 0)
    let t2 := w32 (bsig0 s.a + shaMaj s.a s.b s.c)
    ⟨w32 (t1 + t2), s.a, s.b, s.c, w32 (s.d + t1), s.e, s.f, s.g⟩) st
  ⟨w32 (st.a + fin.a), w32 (st.b + fin.b), w32 (st.c + fin.c),
   w32 (st.d + fin.d), w32 (st.e + fin.e), w32 (st.f + fin.f),
   w32 (st.g + fin.g), w32 (st.h + fin.h)⟩

/-- SHA-256 of a byte list, as the final eight-word state. -/
def sha256Words (msg : List Nat) : Sha256State :=
  (chunks64 (sha256Pad msg)).foldl sha256Compress sha256Init

/-- The lowercase hexadecimal digit characters, as `hexdigest` emits them. -/
def hexDigit (n : Nat) : Char := "0123456789abcdef".toList.getD n '0'

/-- A 32-bit word as its eight lowercase hex digits, most significant
first. -/
def wordHex (x : Nat) : List Char :=
  (List.range 8).map (fun i => hexDigit ((x >>> (28 - 4 * i)) % 16))

/-- The lowercase hex digest of a SHA-256 state: `hexdigest()`. -/
def stateHex (st : Sha256State) : String :=
  String.mk (wordHex st.a ++ wordHex st.b ++ wordHex st.c ++ wordHex st.d ++
             wordHex st.e ++ wordHex st.f ++ wordHex st.g ++ wordHex st.h)

/-- The UTF-8 bytes of a string: `data.encode('utf-8')`. -/
def strBytes (s : String) : List Nat := s.toUTF8.toList.map (fun b => b.toNat)

/-- `utils.calculate_sha256`: the lowercase-hex SHA-256 digest of the
UTF-8 encoding of a string. -/
def calculate_sha256 (data : String) : String :=
  stateHex (sha256Words (strBytes data))

/-- A Python `float` cell: its numeric value together with its `str()`
rendering (Python's shortest-roundtrip repr). Comparisons and sums use
`val`; stringification uses `repr`. -/
structure PyFloat where
  val : Rat
  repr : String
deriving Repr, DecidableEq

/-- `utils.calculate_audit_trail_id`: SHA-256 of the separator-free
concatenation `f"{device_id}{timestamp}{kwh}"`. -/
def calculate_audit_trail_id (device_id : String) (timestamp : String)
    (kwh : PyFloat) : String :=
  calculate_sha256 (device_id ++ timestamp ++ kwh.repr)

/-! ## Timestamps

A parsed `pandas.Timestamp` is modelled by its calendar fields.
Comparisons and differences go through seconds-since-year-1 (the standard
civil-calendar day count), exactly mirroring the epoch arithmetic pandas
performs on its internal representation; `str()` renders
`YYYY-MM-DD HH:MM:SS` and `isoformat()` uses a `T` separator. -/

/-- A parsed timestamp's calendar fields (assumed calendar-valid, as
`pd.to_datetime` only produces valid instants). -/
structure PyDatetime where
  year : Nat
  month : Nat
  day : Nat
  hour : Nat
  minute : Nat
  second : Nat
deriving Repr, DecidableEq

/-- Days from 0001-03-01-based civil reckoning (Gregorian), valid for
years ≥ 1: the standard era/year-of-era/day-of-year decomposition. -/
def civilDays (y m d : Nat) : Nat :=
  let y2 := if m ≤ 2 then y - 1 else y
  let era := y2 / 400
  let yoe := y2 % 400
  let doy := (153 * (if 2 < m then m - 3 else m + 9) + 2) / 5 + d - 1
  let doe := yoe * 365 + yoe / 4 - yoe / 100 + doy
  era * 146097 + doe

/-- A timestamp as absolute seconds; the quantity pandas compares and
subtracts. -/
def tsSeconds (t : PyDatetime) : Nat :=
  civilDays t.year t.month t.day * 86400 +
    t.hour * 3600 + t.minute * 60 + t.second

/-- Zero-padded two-digit rendering. -/
def pad2 (n : Nat) : String := if n < 10 then "0" ++ toString n else toString n

/-- Zero-padded four-digit year rendering. -/
def pad4 (n : Nat) : String :=
  if n < 10 then "000" ++ toString n
  else if n < 100 then "00" ++ toString n
  else if n < 1000 then "0" ++ toString n
  else toString n

/-- `str(Timestamp)`: `YYYY-MM-DD HH:MM:SS`. -/
def tsStr (t : PyDatetime) : String :=
  pad4 t.year ++ "-" ++ pad2 t.month ++ "-" ++ pad2 t.day ++ " " ++
    pad2 t.hour ++ ":" ++ pad2 t.minute ++ ":" ++ pad2 t.second

/-- `Timestamp.isoformat()`: `YYYY-MM-DDTHH:MM:SS`. -/
def tsIso (t : PyDatetime) : String :=
  pad4 t.year ++ "-" ++ pad2 t.month ++ "-" ++ pad2 t.day ++ "T" ++
    pad2 t.hour ++ ":" ++ pad2 t.minute ++ ":" ++ pad2 t.second

/-- The outcome `pd.to_datetime` has on one raw timestamp cell: either the
parsed instant, or the raw string it raises on. -/
inductive TsCell
  | good : PyDatetime → TsCell
  | bad : String → TsCell
deriving Repr, DecidableEq

/-- The parsed instant of a cell; bad cells never reach a use of this
default because the validator returns first. -/
def tsD : TsCell → PyDatetime
  | .good t => t
  | .bad _ => ⟨1970, 1, 1, 0, 0, 0⟩

/-- The raw string of the first unparseable cell, if any: the value
`pd.to_datetime` raises on. -/
def firstBadTs (rows : List TsCell) : Option String :=
  rows.findSome? (fun c => match c with | .bad s => some s | .good _ => none)

/-! ## The issuance-period dataframe and validator
(`utils.validate_issuance_period_csv`, `config.py`) -/

/-- One data row of an issuance-period CSV, as pandas holds it: the cell
values for the four recognised columns. A field is consulted only when
its column is present in the header, mirroring `df[col]` access. -/
structure IssRow where
  deviceId : String
  timestamp : TsCell
  kWh : PyFloat
  auditTrailId : String
deriving Repr, DecidableEq

/-- A parsed issuance dataframe: header plus rows. -/
structure IssuanceCsv where
  cols : List String
  rows : List IssRow
deriving Repr, DecidableEq

/-- `config.REQUIRED_ISSUANCE_PERIOD_COLUMNS`. -/
def REQUIRED_ISSUANCE_PERIOD_COLUMNS : List String :=
  ["deviceId", "timestamp", "kWh", "auditTrailId"]

/-- The `result['summary']` mapping of the issuance validator: each key is
`none` until the corresponding assignment runs. -/
structure IssuanceSummary where
  total_rows : Option Nat := none
  total_kwh : Option Rat := none
  unique_devices : Option Nat := none
  period_start : Option String := none
  period_end : Option String := none
deriving Repr, DecidableEq

/-- The dict returned by `validate_issuance_period_csv`. -/
structure IssuanceValidationResult where
  valid : Bool
  errors : List String
  data : Option (List IssRow)
  summary : IssuanceSummary
  audit_trail_ids : List String
deriving Repr, DecidableEq

/-- Rows flagged by `df[df['kWh'] < 0]`. -/
def negativeKwhRows (rows : List IssRow) : List IssRow :=
  rows.filter (fun r => decide (r.kWh.val < 0))

/-- Insert into a sorted list, keeping it sorted ascending. -/
def insertSorted (x : Nat) : List Nat → List Nat
  | [] => [x]
  | y :: ys => if x ≤ y then x :: y :: ys else y :: insertSorted x ys

/-- Ascending insertion sort. `df.sort_values` sorts the timestamp column
ascending; the sorted sequence of values is the same whatever sorting
algorithm produces it, so the consecutive differences below are exactly
the ones pandas takes. -/
def sortNat (l : List Nat) : List Nat := l.foldr insertSorted []

/-- The count of consecutive gaps above two hours among the
timestamp-sorted rows: `df.sort_values('timestamp')['timestamp'].diff()`
compared against `pd.Timedelta(hours=2)` (the first diff is `NaT`, never
counted). -/
def timestampGapCount (rows : List IssRow) : Nat :=
  let times := sortNat (rows.map (fun r => tsSeconds (tsD r.timestamp)))
  (times.zip times.tail).countP (fun p => decide (7200 < p.2 - p.1))

/-- The derived identity of one row, as the derivation loop computes it:
`calculate_audit_trail_id(str(row['deviceId']), str(row['timestamp']),
float(row['kWh']))`, the timestamp being the already-parsed instant. -/
def deriveRowId (r : IssRow) : String :=
  calculate_audit_trail_id r.deviceId (tsStr (tsD r.timestamp)) r.kWh

/-- The minimum timestamp of the batch, by the epoch comparison pandas
uses. -/
def minTs (ts : List PyDatetime) : Option PyDatetime :=
  ts.foldl (fun acc t => match acc with
    | none => some t
    | some m => if tsSeconds t < tsSeconds m then some t else some m) none

/-- The maximum timestamp of the batch. -/
def maxTs (ts : List PyDatetime) : Option PyDatetime :=
  ts.foldl (fun acc t => match acc with
    | none => some t
    | some m => if tsSeconds m < tsSeconds t then some t else some m) none

/-- `df['timestamp'].min().isoformat()`: `'NaT'` on an empty frame
(`pd.NaT.isoformat()`), otherwise the ISO form of the minimum. -/
def periodStartStr (rows : List IssRow) : String :=
  match minTs (rows.map (fun r => tsD r.timestamp)) with
  | none => "NaT"
  | some t => tsIso t

/-- `df['timestamp'].max().isoformat()`: `'NaT'` on an empty frame. -/
def periodEndStr (rows : List IssRow) : String :=
  match maxTs (rows.map (fun r => tsD r.timestamp)) with
  | none => "NaT"
  | some t => tsIso t

/-- `df['deviceId'].nunique()`. -/
def nuniqueDevices (rows : List IssRow) : Nat :=
  (rows.map (fun r => r.deviceId)).toFinset.card

/-- `utils.validate_issuance_period_csv`, on a parsed dataframe. The
branches mirror the source top to bottom: missing required columns short-
circuit; a `KeyError` on a wholly absent `timestamp` column and an
unparseable timestamp value are each caught and returned at once (the
latter by the inner `try`, before the kWh check runs); the negative-kWh
count and the gap warning are then appended to `errors` in that order
(only the former clears `valid`); finally the identity list is taken
verbatim from an `auditTrailId` column or derived row by row (a
`KeyError` in that loop surfaces as a parsing error via the outer
handler, leaving the partially built result). -/
def validate_issuance_period_csv (csv : IssuanceCsv)
    (required_columns : List String) : IssuanceValidationResult :=
  let total := csv.rows.length
  let missing := required_columns.filter (fun c => !(csv.cols.contains c))
  if !missing.isEmpty then
    { valid := false,
      errors := ["Missing required columns: " ++ String.intercalate ", " missing],
      data := none, summary := { total_rows := some total },
      audit_trail_ids := [] }
  else if !(csv.cols.contains "timestamp") then
    { valid := false, errors := ["CSV parsing error: 'timestamp'"],
      data := none, summary := { total_rows := some total },
      audit_trail_ids := [] }
  else
    match firstBadTs (csv.rows.map (fun r => r.timestamp)) with
    | some raw =>
      { valid := false, errors := ["Invalid timestamp format: " ++ raw],
        data := none, summary := { total_rows := some total },
        audit_trail_ids := [] }
    | none =>
      let kwhPresent := csv.cols.contains "kWh"
      let negCount := (negativeKwhRows csv.rows).length
      let errsNeg := if kwhPresent && negCount != 0 then
        [toString negCount ++ " rows have negative kWh values"] else []
      let total_kwh := if kwhPresent then
        some (csv.rows.map (fun r => r.kWh.val)).sum else none
      let gaps := timestampGapCount csv.rows
      let errsGap := if gaps != 0 then
        ["Warning: " ++ toString gaps ++ " time gaps exceeding 2 hours detected"]
        else []
      let baseErrors := errsNeg ++ errsGap
      let baseValid := errsNeg.isEmpty
      let summaryFull : IssuanceSummary :=
        { total_rows := some total, total_kwh := total_kwh,
          unique_devices := some (if csv.cols.contains "deviceId" then
            nuniqueDevices csv.rows else 0),
          period_start := some (periodStartStr csv.rows),
          period_end := some (periodEndStr csv.rows) }
      if csv.cols.contains "auditTrailId" then
        { valid := baseValid, errors := baseErrors, data := some csv.rows,
          summary := summaryFull,
          audit_trail_ids := csv.rows.map (fun r => r.auditTrailId) }
      else if !csv.rows.isEmpty &&
          !(csv.cols.contains "deviceId" && csv.cols.contains "kWh") then
        { valid := false,
          errors := baseErrors ++
            [if csv.cols.contains "deviceId" then "CSV parsing error: 'kWh'"
             else "CSV parsing error: 'deviceId'"],
          data := none,
          summary := { total_rows := some total, total_kwh := total_kwh },
          audit_trail_ids := [] }
      else
        let ids := csv.rows.map deriveRowId
        { valid := baseValid, errors := baseErrors,
          data := some (csv.rows.map (fun r => { r with auditTrailId := deriveRowId r })),
          summary := summaryFull,
          audit_trail_ids := ids }

/-! ## Deduplication engine (`utils.check_duplicates`) -/

/-- The dict returned by `check_duplicates`; `duplicate_ids` is
`list(set ∩ set)`, an unordered collection, so a `Finset`. -/
structure DedupVerdict where
  has_duplicates : Bool
  duplicate_count : Nat
  duplicate_ids : Finset String
deriving DecidableEq

/-- `utils.check_duplicates`: intersect the batch's identity set with the
set of previously logged identities. -/
def check_duplicates (audit_trail_ids : List String)
    (existing_audit_trail_ids : List String) : DedupVerdict :=
  let duplicates := audit_trail_ids.toFinset ∩ existing_audit_trail_ids.toFinset
  { has_duplicates := decide (0 < duplicates.card),
    duplicate_count := duplicates.card,
    duplicate_ids := duplicates }

/-! ## The device-registry validator
(`utils.validate_device_registry_csv`, `config.py`) -/

/-- One data row of a device-registry CSV: the cell values of the columns
the validator inspects. -/
structure DevRow where
  deviceId : String
  facilityId : String
  capacityKW : Rat
  country : String
deriving Repr, DecidableEq

/-- A parsed device-registry dataframe. -/
structure DeviceCsv where
  cols : List String
  rows : List DevRow
deriving Repr, DecidableEq

/-- `config.REQUIRED_DEVICE_REGISTRY_COLUMNS`. -/
def REQUIRED_DEVICE_REGISTRY_COLUMNS : List String :=
  ["deviceId", "facilityId", "serialNumber", "manufacturer",
   "model", "capacityKW", "technology", "country",
   "gridConnectionPoint", "commissioningDate"]

/-- `config.ALLOWED_COUNTRIES`, the literal list in the validator too. -/
def ALLOWED_COUNTRIES : List String :=
  ["Nigeria", "Benin", "Ghana", "Kenya", "South Africa"]

/-- `config.MAX_DEVICE_CAPACITY_KW`, the Python int 250. -/
def MAX_DEVICE_CAPACITY_KW : Rat := 250

/-- Python str() of the numbers interpolated into validator messages: the
configured ceiling is an int, rendered without a decimal point. -/
def pyNumStr (q : Rat) : String :=
  if q.den = 1 then toString q.num else toString q

/-- Rows flagged by `df[df['capacityKW'] > max_capacity_kw]`. -/
def overCapacityRows (rows : List DevRow) (max_capacity_kw : Rat) : List DevRow :=
  rows.filter (fun r => decide (max_capacity_kw < r.capacityKW))

/-- Rows flagged by `df.duplicated(subset=['deviceId','facilityId'],
keep=False)`: every row whose (deviceId, facilityId) pair occurs more than
once in the batch. -/
def duplicatedPairRows (rows : List DevRow) : List DevRow :=
  rows.filter (fun r =>
    1 < rows.countP (fun r2 =>
      r2.deviceId == r.deviceId && r2.facilityId == r.facilityId))

/-- Rows flagged by `df[~df['country'].isin(allowed_countries)]`. -/
def invalidCountryRows (rows : List DevRow) : List DevRow :=
  rows.filter (fun r => !(ALLOWED_COUNTRIES.contains r.country))

/-- The `result['summary']` mapping of the device validator. -/
structure DeviceSummary where
  total_rows : Option Nat := none
  over_capacity_devices : Option (List String) := none
  unique_devices : Option Nat := none
deriving Repr, DecidableEq

/-- The dict returned by `validate_device_registry_csv`. -/
structure DeviceValidationResult where
  valid : Bool
  errors : List String
  data : Option (List DevRow)
  summary : DeviceSummary
deriving Repr, DecidableEq

/-- `utils.validate_device_registry_csv` on a parsed dataframe: missing
required columns short-circuit; then the capacity ceiling, the duplicate
(deviceId, facilityId) check and the country allow-list each append one
error and clear `valid`, without stopping (listing over-capacity devices
without a `deviceId` column would raise a `KeyError`, caught by the outer
handler with the capacity error already recorded). -/
def validate_device_registry_csv (csv : DeviceCsv)
    (required_columns : List String) (max_capacity_kw : Rat) :
    DeviceValidationResult :=
  let total := csv.rows.length
  let missing := required_columns.filter (fun c => !(csv.cols.contains c))
  if !missing.isEmpty then
    { valid := false,
      errors := ["Missing required columns: " ++ String.intercalate ", " missing],
      data := none, summary := { total_rows := some total } }
  else
    let capPresent := csv.cols.contains "capacityKW"
    let over := if capPresent then overCapacityRows csv.rows max_capacity_kw else []
    let errsCap := if capPresent && !over.isEmpty then
      [toString over.length ++ " devices exceed maximum capacity of " ++
        pyNumStr max_capacity_kw ++ " kW"] else []
    if capPresent && !over.isEmpty && !(csv.cols.contains "deviceId") then
      { valid := false, errors := errsCap ++ ["CSV parsing error: 'deviceId'"],
        data := none, summary := { total_rows := some total } }
    else
      let overDevices := if capPresent && !over.isEmpty then
        some (over.map (fun r => r.deviceId)) else none
      let dupPresent := csv.cols.contains "deviceId" && csv.cols.contains "facilityId"
      let dups := if dupPresent then duplicatedPairRows csv.rows else []
      let errsDup := if dupPresent && !dups.isEmpty then
        [toString dups.length ++ " duplicate device-facility combinations found"]
        else []
      let ctryPresent := csv.cols.contains "country"
      let inv := if ctryPresent then invalidCountryRows csv.rows else []
      let errsCtry := if ctryPresent && !inv.isEmpty then
        [toString inv.length ++ " devices have invalid country codes"] else []
      let summ : DeviceSummary :=
        { total_rows := some total,
          over_capacity_devices := overDevices,
          unique_devices := some (if csv.cols.contains "deviceId" then
            (csv.rows.map (fun r => r.deviceId)).toFinset.card else 0) }
      { valid := errsCap.isEmpty && errsDup.isEmpty && errsCtry.isEmpty,
        errors := errsCap ++ errsDup ++ errsCtry,
        data := some csv.rows,
        summary := summ }

/-! ## Submission orchestrator (`issuance_routes.submit_issuance`,
`models.py`)

The embedding starts where the claims do: after the request/authorization
preamble (registrant and device lookups, lines 24-61), which returns
early without touching the stores modelled here. The database session is
the triple of stores below; `db.session.commit()` is the atomic
replacement of the state. The optional registrant-declaration file is
orthogonal to every claim and not modelled. -/

/-- `models.IssuanceSubmission.status` values. -/
inductive SubmissionStatus
  | pending
  | duplicate_detected
  | approved
  | rejected
  | under_review
deriving Repr, DecidableEq

/-- One `models.DeduplicationLog` row; the global identity index is the
`audit_trail_id` column of this table. -/
structure DedupLogEntry where
  audit_trail_id : String
  device_id : String
  timestamp : PyDatetime
  kwh : Rat
deriving Repr, DecidableEq

/-- One `models.IssuanceSubmission` row, the fields the pipeline writes. -/
structure IssuanceSubmission where
  issuance_period_start : Option String
  issuance_period_end : Option String
  total_kwh : Option Rat
  num_readings : Option Nat
  csv_file_path : String
  status : SubmissionStatus
  deduplication_result : DedupVerdict
deriving DecidableEq

/-- The persistent stores `submit_issuance` touches: the submissions
table, the deduplication-log table, and the upload folder's files. -/
structure ServerState where
  submissions : List IssuanceSubmission
  dedup_logs : List DedupLogEntry
  artifacts : List String
deriving DecidableEq

/-- The HTTP outcome of `submit_issuance` past the preamble: 400 with the
validator's error list, or 201 with the submission status, verdict and
summary. -/
inductive SubmitResponse
  | validationFailed : List String → SubmitResponse
  | created : SubmissionStatus → DedupVerdict → IssuanceSummary → SubmitResponse
deriving DecidableEq

/-- The `DeduplicationLog` row built from one dataframe row. -/
def logEntryOfRow (r : IssRow) : DedupLogEntry :=
  { audit_trail_id := r.auditTrailId, device_id := r.deviceId,
    timestamp := tsD r.timestamp, kwh := r.kWh.val }

/-- `issuance_routes.submit_issuance`, lines 63-158: save the upload,
validate, delete the upload and answer 400 on an invalid report;
otherwise read the global index, run the dedup check, choose the status,
insert the submission, and append one dedup-log row per dataframe row
only when the batch is clean. -/
def submit_issuance (st : ServerState) (csv_path : String)
    (csv : IssuanceCsv) : SubmitResponse × ServerState :=
  let st1 : ServerState := { st with artifacts := st.artifacts ++ [csv_path] }
  let vr := validate_issuance_period_csv csv REQUIRED_ISSUANCE_PERIOD_COLUMNS
  if vr.valid = false then
    (SubmitResponse.validationFailed vr.errors,
     { st1 with artifacts := st1.artifacts.erase csv_path })
  else
    let existing := st1.dedup_logs.map (fun l => l.audit_trail_id)
    let dc := check_duplicates vr.audit_trail_ids existing
    let status := if dc.has_duplicates then SubmissionStatus.duplicate_detected
      else SubmissionStatus.pending
    let submission : IssuanceSubmission :=
      { issuance_period_start := vr.summary.period_start,
        issuance_period_end := vr.summary.period_end,
        total_kwh := vr.summary.total_kwh,
        num_readings := vr.summary.total_rows,
        csv_file_path := csv_path,
        status := status,
        deduplication_result := dc }
    let newLogs := if dc.has_duplicates then st1.dedup_logs
      else st1.dedup_logs ++ (vr.data.getD []).map logEntryOfRow
    (SubmitResponse.created status dc vr.summary,
     { st1 with submissions := st1.submissions ++ [submission],
                dedup_logs := newLogs })

/-! ## Theorems -/

/-- The eight hex digits of a word are exactly eight characters. -/
theorem wordHex_length (x : Nat) : (wordHex x).length = 8 := by
  simp [wordHex]

/-- Each of the sixteen digit values renders to a lowercase hex
character. -/
theorem hexDigit_mem :
    ∀ m, m < 16 → ("0123456789abcdef".toList.contains (hexDigit m)) = true := by
  decide

/-- Every character a word renders to is a lowercase hex digit. -/
theorem wordHex_chars (x : Nat) :
    (wordHex x).all (fun c => "0123456789abcdef".toList.contains c) = true := by
  simp only [wordHex, List.all_eq_true, List.mem_map, List.mem_range]
  rintro c ⟨i, _, rfl⟩
  exact hexDigit_mem _ (Nat.mod_lt _ (by norm_num))

/-- A digest is sixty-four characters. -/
theorem stateHex_length (st : Sha256State) : (stateHex st).length = 64 := by
  simp [stateHex, String.length, wordHex_length]

/-- Every character of a digest is a lowercase hex digit. -/
theorem stateHex_chars (st : Sha256State) :
    (stateHex st).toList.all (fun c => "0123456789abcdef".toList.contains c)
      = true := by
  have h : (stateHex st).toList =
      wordHex st.a ++ wordHex st.b ++ wordHex st.c ++ wordHex st.d ++
      wordHex st.e ++ wordHex st.f ++ wordHex st.g ++ wordHex st.h := rfl
  rw [h]
  simp only [List.all_append, Bool.and_eq_true]
  exact ⟨⟨⟨⟨⟨⟨⟨wordHex_chars _, wordHex_chars _⟩, wordHex_chars _⟩,
    wordHex_chars _⟩, wordHex_chars _⟩, wordHex_chars _⟩, wordHex_chars _⟩,
    wordHex_chars _⟩

/-- C1: `check_duplicates` computes the intersection of the batch-identity
set and the index-identity set: `has_duplicates` holds exactly when the
intersection is non-empty, `duplicate_count` is its cardinality, and
`duplicate_ids` is exactly its members; the verdict depends only on the
two input sets (purity/extensionality), and an empty batch or an empty
index yields no duplicates and a zero count by the same rule. -/
theorem check_duplicates_spec (ids existing : List String) :
    ((check_duplicates ids existing).has_duplicates = true ↔
      (ids.toFinset ∩ existing.toFinset).Nonempty) ∧
    (check_duplicates ids existing).duplicate_count =
      (ids.toFinset ∩ existing.toFinset).card ∧
    (check_duplicates ids existing).duplicate_ids =
      ids.toFinset ∩ existing.toFinset ∧
    (∀ ids2 existing2 : List String, ids.toFinset = ids2.toFinset →
      existing.toFinset = existing2.toFinset →
      check_duplicates ids existing = check_duplicates ids2 existing2) ∧
    (ids = [] → (check_duplicates ids existing).has_duplicates = false ∧
      (check_duplicates ids existing).duplicate_count = 0) ∧
    (existing = [] → (check_duplicates ids existing).has_duplicates = false ∧
      (check_duplicates ids existing).duplicate_count = 0) := by
  refine ⟨?_, rfl, rfl, ?_, ?_, ?_⟩
  · simp [check_duplicates, Finset.card_pos]
  · intro ids2 existing2 h1 h2
    simp [check_duplicates, h1, h2]
  · rintro rfl
    simp [check_duplicates]
  · rintro rfl
    simp [check_duplicates]

/-- C1 witness: the spec theorem applied at concrete inputs — an empty
batch yields no duplicates, and the verdict is invariant under
reordering and repetition of the inputs. -/
theorem check_duplicates_spec_witness :
    (check_duplicates [] ["x"]).has_duplicates = false ∧
    check_duplicates ["a", "b"] ["b", "c"] =
      check_duplicates ["b", "a", "a"] ["c", "b"] := by
  constructor
  · exact ((check_duplicates_spec [] ["x"]).2.2.2.2.1 rfl).1
  · exact (check_duplicates_spec ["a", "b"] ["b", "c"]).2.2.2.1
      ["b", "a", "a"] ["c", "b"] (by decide) (by decide)

/-- C8: identity derivation is deterministic — a pure function of the
triple, so deriving any number of times yields the identical string —
and that string is precisely the lowercase hex encoding of the 256-bit
SHA-256 hash of the order-sensitive concatenation of deviceId, the
timestamp string and the kWh string: sixty-four characters, all lowercase
hex digits. -/
theorem calculate_audit_trail_id_deterministic (d t : String) (k : PyFloat) :
    calculate_audit_trail_id d t k = calculate_audit_trail_id d t k ∧
    calculate_audit_trail_id d t k =
      stateHex (sha256Words (strBytes (d ++ t ++ k.repr))) ∧
    (calculate_audit_trail_id d t k).length = 64 ∧
    ((calculate_audit_trail_id d t k).toList.all
      (fun c => "0123456789abcdef".toList.contains c)) = true :=
  ⟨rfl, rfl, stateHex_length _, stateHex_chars _⟩

/-- C9: derivation is not injective even for a collision-free hash: the
separator-free payload `deviceId + timestamp + kWh` identifies these two
distinct (deviceId, timestamp, kWh) triples, so both readings get the
same identity. The proof never appeals to a hash collision — the two
concatenated payloads are the identical string. -/
theorem calculate_audit_trail_id_not_injective :
    (("A1", "2024-01-01 00:00:00", (⟨5, "5.0"⟩ : PyFloat)) ≠
      ("A", "12024-01-01 00:00:00", (⟨5, "5.0"⟩ : PyFloat))) ∧
    ("A1" ++ "2024-01-01 00:00:00" ++ "5.0" : String) =
      ("A" ++ "12024-01-01 00:00:00" ++ "5.0" : String) ∧
    calculate_audit_trail_id "A1" "2024-01-01 00:00:00" ⟨5, "5.0"⟩ =
      calculate_audit_trail_id "A" "12024-01-01 00:00:00" ⟨5, "5.0"⟩ := by
  refine ⟨by decide, rfl, ?_⟩
  show calculate_sha256 ("A1" ++ "2024-01-01 00:00:00" ++ "5.0") =
    calculate_sha256 ("A" ++ "12024-01-01 00:00:00" ++ "5.0")
  exact congrArg calculate_sha256 rfl

/-- A column list that leaves the required-column filter empty contains
every required name. -/
theorem contains_of_filter_nil {cols req : List String}
    (h : req.filter (fun c => !(cols.contains c)) = []) {c : String}
    (hc : c ∈ req) : cols.contains c = true := by
  have := List.filter_eq_nil_iff.mp h c hc
  simpa using this

/-- C3: with the configured required-column list — which, against the
spec, includes `auditTrailId` — an issuance CSV carrying only deviceId,
timestamp and kWh is rejected for a missing column, and the validator's
own row-by-row derivation branch never runs; that branch does derive one
identity per row from (deviceId, timestamp, kWh), exactly as the claim
demands, when the validator is invoked with the three-column list the
spec intends. -/
theorem issuance_audit_col_required_bug :
    (validate_issuance_period_csv
      ⟨["deviceId", "timestamp", "kWh"],
       [⟨"D1", .good ⟨2024, 1, 1, 0, 0, 0⟩, ⟨5, "5.0"⟩, ""⟩]⟩
      REQUIRED_ISSUANCE_PERIOD_COLUMNS).valid = false ∧
    (validate_issuance_period_csv
      ⟨["deviceId", "timestamp", "kWh"],
       [⟨"D1", .good ⟨2024, 1, 1, 0, 0, 0⟩, ⟨5, "5.0"⟩, ""⟩]⟩
      REQUIRED_ISSUANCE_PERIOD_COLUMNS).errors =
      ["Missing required columns: auditTrailId"] ∧
    (validate_issuance_period_csv
      ⟨["deviceId", "timestamp", "kWh"],
       [⟨"D1", .good ⟨2024, 1, 1, 0, 0, 0⟩, ⟨5, "5.0"⟩, ""⟩]⟩
      ["deviceId", "timestamp", "kWh"]).valid = true ∧
    (validate_issuance_period_csv
      ⟨["deviceId", "timestamp", "kWh"],
       [⟨"D1", .good ⟨2024, 1, 1, 0, 0, 0⟩, ⟨5, "5.0"⟩, ""⟩]⟩
      ["deviceId", "timestamp", "kWh"]).audit_trail_ids =
      [calculate_audit_trail_id "D1" (tsStr ⟨2024, 1, 1, 0, 0, 0⟩) ⟨5, "5.0"⟩] := by
  refine ⟨by decide, by decide, by decide, rfl⟩

/-- C5 counterexample: a one-row issuance CSV whose timestamp is
unparseable and whose kWh is negative produces a report listing only the
timestamp error — the negative-kWh error is not collected, because the
timestamp failure returns early — refuting the claim that both fatal
conditions reach the caller in one pass. -/
theorem bad_ts_negative_kwh_single_error :
    (negativeKwhRows
      [⟨"D1", .bad "notadate", ⟨-5, "-5.0"⟩, "x"⟩]).length = 1 ∧
    (validate_issuance_period_csv
      ⟨REQUIRED_ISSUANCE_PERIOD_COLUMNS,
       [⟨"D1", .bad "notadate", ⟨-5, "-5.0"⟩, "x"⟩]⟩
      REQUIRED_ISSUANCE_PERIOD_COLUMNS).errors =
      ["Invalid timestamp format: notadate"] ∧
    (validate_issuance_period_csv
      ⟨REQUIRED_ISSUANCE_PERIOD_COLUMNS,
       [⟨"D1", .bad "notadate", ⟨-5, "-5.0"⟩, "x"⟩]⟩
      REQUIRED_ISSUANCE_PERIOD_COLUMNS).valid = false := by
  refine ⟨by decide, by decide, by decide⟩

/-- C5 amended: fatal conditions are collected in one pass only after
timestamp parsing succeeds; an unparseable timestamp short-circuits just
like missing columns do, so a CSV with a bad timestamp yields exactly the
one timestamp error, whatever else is wrong with its rows. -/
theorem bad_timestamp_short_circuits (csv : IssuanceCsv) (raw : String)
    (hcols : REQUIRED_ISSUANCE_PERIOD_COLUMNS.filter
      (fun c => !(csv.cols.contains c)) = [])
    (hbad : firstBadTs (csv.rows.map (fun r => r.timestamp)) = some raw) :
    validate_issuance_period_csv csv REQUIRED_ISSUANCE_PERIOD_COLUMNS =
      { valid := false, errors := ["Invalid timestamp format: " ++ raw],
        data := none, summary := { total_rows := some csv.rows.length },
        audit_trail_ids := [] } := by
  have hts : csv.cols.contains "timestamp" = true :=
    contains_of_filter_nil hcols (by decide)
  unfold validate_issuance_period_csv
  simp only [hcols, hts, hbad, List.isEmpty_nil, Bool.not_true, Bool.not_false,
    if_false, if_true, Bool.false_eq_true, ite_false, ite_true]

/-- C5 amended witness: the short-circuit theorem applied at the concrete
counterexample input. -/
theorem bad_timestamp_short_circuits_witness :
    validate_issuance_period_csv
      ⟨REQUIRED_ISSUANCE_PERIOD_COLUMNS,
       [⟨"D1", .bad "notadate", ⟨-5, "-5.0"⟩, "x"⟩]⟩
      REQUIRED_ISSUANCE_PERIOD_COLUMNS =
      { valid := false, errors := ["Invalid timestamp format: notadate"],
        data := none, summary := { total_rows := some 1 },
        audit_trail_ids := [] } :=
  bad_timestamp_short_circuits _ _ (by decide) (by decide)

/-- C4 counterexample: an issuance CSV whose two readings sit three hours
apart yields a report whose `valid` flag is true but whose gap record sits
in the `errors` sequence itself — the returned report has no separate
warnings sequence — refuting the claim that the gap is recorded in a
warnings sequence separate from errors. -/
theorem gap_recorded_inside_errors :
    (validate_issuance_period_csv
      ⟨REQUIRED_ISSUANCE_PERIOD_COLUMNS,
       [⟨"D1", .good ⟨2024, 1, 1, 0, 0, 0⟩, ⟨2, "2.0"⟩, "id1"⟩,
        ⟨"D1", .good ⟨2024, 1, 1, 3, 0, 0⟩, ⟨3, "3.0"⟩, "id2"⟩]⟩
      REQUIRED_ISSUANCE_PERIOD_COLUMNS).valid = true ∧
    (validate_issuance_period_csv
      ⟨REQUIRED_ISSUANCE_PERIOD_COLUMNS,
       [⟨"D1", .good ⟨2024, 1, 1, 0, 0, 0⟩, ⟨2, "2.0"⟩, "id1"⟩,
        ⟨"D1", .good ⟨2024, 1, 1, 3, 0, 0⟩, ⟨3, "3.0"⟩, "id2"⟩]⟩
      REQUIRED_ISSUANCE_PERIOD_COLUMNS).errors =
      ["Warning: 1 time gaps exceeding 2 hours detected"] := by
  refine ⟨by decide, by decide⟩

/-- C4 amended: a consecutive gap above two hours is recorded as a
`Warning:`-prefixed string appended to the report's `errors` sequence
(the report has no separate warnings field); the `valid` flag stays true
— a gap never invalidates a batch whose other checks pass — and the
submission proceeds normally, creating one submission record. -/
theorem gap_warning_nonfatal (st : ServerState) (path : String)
    (csv : IssuanceCsv)
    (hcols : REQUIRED_ISSUANCE_PERIOD_COLUMNS.filter
      (fun c => !(csv.cols.contains c)) = [])
    (hgood : firstBadTs (csv.rows.map (fun r => r.timestamp)) = none)
    (hneg : negativeKwhRows csv.rows = [])
    (hgap : timestampGapCount csv.rows ≠ 0) :
    (validate_issuance_period_csv csv
      REQUIRED_ISSUANCE_PERIOD_COLUMNS).valid = true ∧
    ("Warning: " ++ toString (timestampGapCount csv.rows) ++
      " time gaps exceeding 2 hours detected") ∈
      (validate_issuance_period_csv csv REQUIRED_ISSUANCE_PERIOD_COLUMNS).errors ∧
    (submit_issuance st path csv).2.submissions.length =
      st.submissions.length + 1 := by
  have htsm : "timestamp" ∈ csv.cols := by
    simpa using contains_of_filter_nil hcols (show "timestamp" ∈ _ by decide)
  have hatm : "auditTrailId" ∈ csv.cols := by
    simpa using contains_of_filter_nil hcols (show "auditTrailId" ∈ _ by decide)
  have hall : ∀ c ∈ REQUIRED_ISSUANCE_PERIOD_COLUMNS, c ∈ csv.cols := by
    intro c hc
    simpa using contains_of_filter_nil hcols hc
  have hnex : ¬∃ x ∈ REQUIRED_ISSUANCE_PERIOD_COLUMNS, x ∉ csv.cols := by
    push_neg
    exact hall
  have hgapb : (timestampGapCount csv.rows != 0) = true := by simpa using hgap
  have hv : (validate_issuance_period_csv csv
      REQUIRED_ISSUANCE_PERIOD_COLUMNS).valid = true := by
    unfold validate_issuance_period_csv
    simp [hnex, htsm, hatm, hgood, hneg, hgapb]
  have he : ("Warning: " ++ toString (timestampGapCount csv.rows) ++
      " time gaps exceeding 2 hours detected") ∈
      (validate_issuance_period_csv csv REQUIRED_ISSUANCE_PERIOD_COLUMNS).errors := by
    unfold validate_issuance_period_csv
    simp [hnex, htsm, hatm, hgood, hneg, hgapb]
  refine ⟨hv, he, ?_⟩
  unfold submit_issuance
  simp only [hv]
  simp

/-- C4 amended witness: the amended theorem applied to the concrete
three-hour-gap batch against an empty server state. -/
theorem gap_warning_nonfatal_witness :
    (validate_issuance_period_csv
      ⟨REQUIRED_ISSUANCE_PERIOD_COLUMNS,
       [⟨"D1", .good ⟨2024, 1, 1, 0, 0, 0⟩, ⟨2, "2.0"⟩, "id1"⟩,
        ⟨"D1", .good ⟨2024, 1, 1, 3, 0, 0⟩, ⟨3, "3.0"⟩, "id2"⟩]⟩
      REQUIRED_ISSUANCE_PERIOD_COLUMNS).valid = true ∧
    (submit_issuance ⟨[], [], []⟩ "p"
      ⟨REQUIRED_ISSUANCE_PERIOD_COLUMNS,
       [⟨"D1", .good ⟨2024, 1, 1, 0, 0, 0⟩, ⟨2, "2.0"⟩, "id1"⟩,
        ⟨"D1", .good ⟨2024, 1, 1, 3, 0, 0⟩, ⟨3, "3.0"⟩, "id2"⟩]⟩).2.submissions.length =
      (⟨[], [], []⟩ : ServerState).submissions.length + 1 := by
  have h := gap_warning_nonfatal ⟨[], [], []⟩ "p"
    ⟨REQUIRED_ISSUANCE_PERIOD_COLUMNS,
     [⟨"D1", .good ⟨2024, 1, 1, 0, 0, 0⟩, ⟨2, "2.0"⟩, "id1"⟩,
      ⟨"D1", .good ⟨2024, 1, 1, 3, 0, 0⟩, ⟨3, "3.0"⟩, "id2"⟩]⟩
    (by decide) (by decide) (by decide) (by decide)
  exact ⟨h.1, h.2.2⟩

/-- C6: a submission whose validation report is invalid is rejected with
zero side effects — the response carries the report's errors verbatim and
the server state is returned exactly as it was: the uploaded artifact
(saved, then deleted) is gone, no submission record and no dedup-log rows
exist, and the global identity index is untouched. -/
theorem invalid_csv_zero_side_effects (st : ServerState) (path : String)
    (csv : IssuanceCsv)
    (hpath : path ∉ st.artifacts)
    (hinvalid : (validate_issuance_period_csv csv
      REQUIRED_ISSUANCE_PERIOD_COLUMNS).valid = false) :
    submit_issuance st path csv =
      (SubmitResponse.validationFailed
        (validate_issuance_period_csv csv REQUIRED_ISSUANCE_PERIOD_COLUMNS).errors,
       st) := by
  unfold submit_issuance
  simp only [hinvalid, if_true]
  refine Prod.ext rfl ?_
  have h : (st.artifacts ++ [path]).erase path = st.artifacts := by
    rw [List.erase_append_right _ hpath, List.erase_cons_head]
    simp
  simp [h]

/-- C6 witness: a CSV with no columns at all fails validation and leaves
an empty server state exactly empty. -/
theorem invalid_csv_zero_side_effects_witness :
    "p" ∉ (⟨[], [], []⟩ : ServerState).artifacts ∧
    submit_issuance ⟨[], [], []⟩ "p" ⟨[], []⟩ =
      (SubmitResponse.validationFailed
        (validate_issuance_period_csv ⟨[], []⟩
          REQUIRED_ISSUANCE_PERIOD_COLUMNS).errors,
       (⟨[], [], []⟩ : ServerState)) := by
  refine ⟨by decide, ?_⟩
  exact invalid_csv_zero_side_effects ⟨[], [], []⟩ "p" ⟨[], []⟩
    (by decide) (by decide)

/-- The configured capacity ceiling renders as `250` in the validator's
error message, as Python interpolates the int config value. -/
theorem pyNumStr_ceiling : pyNumStr MAX_DEVICE_CAPACITY_KW = "250" := by decide

/-- C7: on a device-registry CSV carrying all required columns, any row
with capacityKW above the 250 ceiling makes the whole batch invalid, adds
the error `"<n> devices exceed maximum capacity of 250 kW"`, and lists
every over-capacity device's deviceId in the summary; likewise any
duplicated (deviceId, facilityId) pair, and any country outside
{Nigeria, Benin, Ghana, Kenya, South Africa}, each make the whole batch
invalid. -/
theorem device_registry_batch_invalid (csv : DeviceCsv)
    (hcols : REQUIRED_DEVICE_REGISTRY_COLUMNS.filter
      (fun c => !(csv.cols.contains c)) = []) :
    (overCapacityRows csv.rows MAX_DEVICE_CAPACITY_KW ≠ [] →
      (validate_device_registry_csv csv REQUIRED_DEVICE_REGISTRY_COLUMNS
        MAX_DEVICE_CAPACITY_KW).valid = false ∧
      (toString (overCapacityRows csv.rows MAX_DEVICE_CAPACITY_KW).length ++
        " devices exceed maximum capacity of 250 kW") ∈
        (validate_device_registry_csv csv REQUIRED_DEVICE_REGISTRY_COLUMNS
          MAX_DEVICE_CAPACITY_KW).errors ∧
      (validate_device_registry_csv csv REQUIRED_DEVICE_REGISTRY_COLUMNS
        MAX_DEVICE_CAPACITY_KW).summary.over_capacity_devices =
        some ((overCapacityRows csv.rows MAX_DEVICE_CAPACITY_KW).map
          (fun r => r.deviceId))) ∧
    (duplicatedPairRows csv.rows ≠ [] →
      (validate_device_registry_csv csv REQUIRED_DEVICE_REGISTRY_COLUMNS
        MAX_DEVICE_CAPACITY_KW).valid = false) ∧
    (invalidCountryRows csv.rows ≠ [] →
      (validate_device_registry_csv csv REQUIRED_DEVICE_REGISTRY_COLUMNS
        MAX_DEVICE_CAPACITY_KW).valid = false) := by
  have hdev : "deviceId" ∈ csv.cols := by
    simpa using contains_of_filter_nil hcols (show "deviceId" ∈ _ by decide)
  have hfac : "facilityId" ∈ csv.cols := by
    simpa using contains_of_filter_nil hcols (show "facilityId" ∈ _ by decide)
  have hcap : "capacityKW" ∈ csv.cols := by
    simpa using contains_of_filter_nil hcols (show "capacityKW" ∈ _ by decide)
  have hctry : "country" ∈ csv.cols := by
    simpa using contains_of_filter_nil hcols (show "country" ∈ _ by decide)
  have hnex : ¬∃ x ∈ REQUIRED_DEVICE_REGISTRY_COLUMNS, x ∉ csv.cols := by
    push_neg
    intro c hc
    simpa using contains_of_filter_nil hcols hc
  refine ⟨?_, ?_, ?_⟩
  · intro hover
    have hoverb : (overCapacityRows csv.rows
        MAX_DEVICE_CAPACITY_KW).isEmpty = false := by
      simpa [List.isEmpty_iff] using hover
    unfold validate_device_registry_csv
    rw [pyNumStr_ceiling]
    simp [hnex, hdev, hfac, hcap, hctry, hoverb, String.append_assoc]
  · intro hdup
    have hdupb : (duplicatedPairRows csv.rows).isEmpty = false := by
      simpa [List.isEmpty_iff] using hdup
    unfold validate_device_registry_csv
    simp [hnex, hdev, hfac, hcap, hctry, hdupb]
  · intro hctr
    have hctrb : (invalidCountryRows csv.rows).isEmpty = false := by
      simpa [List.isEmpty_iff] using hctr
    unfold validate_device_registry_csv
    simp [hnex, hdev, hfac, hcap, hctry, hctrb]

/-- C7 witness: a two-row registry batch with a 300 kW device, a repeated
(deviceId, facilityId) pair and a country off the allow-list is invalid,
with the scenario-A error message present. -/
theorem device_registry_batch_invalid_witness :
    (validate_device_registry_csv
      ⟨REQUIRED_DEVICE_REGISTRY_COLUMNS,
       [⟨"D1", "F1", 300, "France"⟩, ⟨"D1", "F1", 100, "Nigeria"⟩]⟩
      REQUIRED_DEVICE_REGISTRY_COLUMNS MAX_DEVICE_CAPACITY_KW).valid = false ∧
    ("1 devices exceed maximum capacity of 250 kW") ∈
      (validate_device_registry_csv
        ⟨REQUIRED_DEVICE_REGISTRY_COLUMNS,
         [⟨"D1", "F1", 300, "France"⟩, ⟨"D1", "F1", 100, "Nigeria"⟩]⟩
        REQUIRED_DEVICE_REGISTRY_COLUMNS MAX_DEVICE_CAPACITY_KW).errors := by
  have h := device_registry_batch_invalid
    ⟨REQUIRED_DEVICE_REGISTRY_COLUMNS,
     [⟨"D1", "F1", 300, "France"⟩, ⟨"D1", "F1", 100, "Nigeria"⟩]⟩ (by decide)
  have h1 := h.1 (by decide)
  exact ⟨h1.1, h1.2.1⟩

/-- On a report that came back valid, the returned dataframe rows exist
and their `auditTrailId` column is exactly the returned identity list —
whether the column was taken verbatim or filled in by derivation. -/
theorem validate_issuance_data_ids (csv : IssuanceCsv) (required : List String) :
    (validate_issuance_period_csv csv required).valid = false ∨
    ∃ rows2, (validate_issuance_period_csv csv required).data = some rows2 ∧
      rows2.map (fun r => r.auditTrailId) =
        (validate_issuance_period_csv csv required).audit_trail_ids := by
  simp only [validate_issuance_period_csv]
  split
  · exact Or.inl rfl
  · split
    · exact Or.inl rfl
    · split
      · exact Or.inl rfl
      · split
        · exact Or.inr ⟨csv.rows, rfl, rfl⟩
        · split
          · exact Or.inl rfl
          · refine Or.inr ⟨_, rfl, ?_⟩
            rw [List.map_map]
            rfl

/-- A clean dedup verdict means no batch identity occurs in the index. -/
theorem check_duplicates_false_disjoint {ids existing : List String}
    (h : (check_duplicates ids existing).has_duplicates = false)
    {x : String} (hx : x ∈ existing) : x ∉ ids := by
  intro hxi
  have hcard : (ids.toFinset ∩ existing.toFinset).card = 0 := by
    have := of_decide_eq_false h
    omega
  have hempty : ids.toFinset ∩ existing.toFinset = ∅ := Finset.card_eq_zero.mp hcard
  have hmem : x ∈ ids.toFinset ∩ existing.toFinset :=
    Finset.mem_inter.mpr ⟨List.mem_toFinset.mpr hxi, List.mem_toFinset.mpr hx⟩
  rw [hempty] at hmem
  exact Finset.not_mem_empty x hmem

/-- C2: on a valid submission, a duplicate-flagged batch produces a
submission with status `duplicate_detected` and leaves the global
identity index untouched, while a clean batch produces status `pending`
and appends exactly the batch's derived identities to the index;
consequently an identity already present in the index is never added to
it again — its multiplicity in the index is unchanged by the submission. -/
theorem submit_issuance_dedup_invariant (st : ServerState) (path : String)
    (csv : IssuanceCsv)
    (hvalid : (validate_issuance_period_csv csv
      REQUIRED_ISSUANCE_PERIOD_COLUMNS).valid = true) :
    (∃ s : IssuanceSubmission,
      (submit_issuance st path csv).2.submissions = st.submissions ++ [s] ∧
      s.status = (if (check_duplicates
          (validate_issuance_period_csv csv
            REQUIRED_ISSUANCE_PERIOD_COLUMNS).audit_trail_ids
          (st.dedup_logs.map (fun l => l.audit_trail_id))).has_duplicates
        then SubmissionStatus.duplicate_detected
        else SubmissionStatus.pending)) ∧
    ((check_duplicates
        (validate_issuance_period_csv csv
          REQUIRED_ISSUANCE_PERIOD_COLUMNS).audit_trail_ids
        (st.dedup_logs.map (fun l => l.audit_trail_id))).has_duplicates = true →
      (submit_issuance st path csv).2.dedup_logs = st.dedup_logs) ∧
    ((check_duplicates
        (validate_issuance_period_csv csv
          REQUIRED_ISSUANCE_PERIOD_COLUMNS).audit_trail_ids
        (st.dedup_logs.map (fun l => l.audit_trail_id))).has_duplicates = false →
      (submit_issuance st path csv).2.dedup_logs.map (fun l => l.audit_trail_id) =
        st.dedup_logs.map (fun l => l.audit_trail_id) ++
        (validate_issuance_period_csv csv
          REQUIRED_ISSUANCE_PERIOD_COLUMNS).audit_trail_ids) ∧
    (∀ x ∈ st.dedup_logs.map (fun l => l.audit_trail_id),
      ((submit_issuance st path csv).2.dedup_logs.map
        (fun l => l.audit_trail_id)).count x =
      (st.dedup_logs.map (fun l => l.audit_trail_id)).count x) := by
  rcases validate_issuance_data_ids csv REQUIRED_ISSUANCE_PERIOD_COLUMNS with
    hf | ⟨rows2, hdata, hids⟩
  · rw [hvalid] at hf
    cases hf
  have hlogs_dup : (check_duplicates
      (validate_issuance_period_csv csv
        REQUIRED_ISSUANCE_PERIOD_COLUMNS).audit_trail_ids
      (st.dedup_logs.map (fun l => l.audit_trail_id))).has_duplicates = true →
      (submit_issuance st path csv).2.dedup_logs = st.dedup_logs := by
    intro hdup
    unfold submit_issuance
    simp only [hvalid, Bool.true_eq_false, if_false, hdup, if_true]
  have hlogs_clean : (check_duplicates
      (validate_issuance_period_csv csv
        REQUIRED_ISSUANCE_PERIOD_COLUMNS).audit_trail_ids
      (st.dedup_logs.map (fun l => l.audit_trail_id))).has_duplicates = false →
      (submit_issuance st path csv).2.dedup_logs.map (fun l => l.audit_trail_id) =
        st.dedup_logs.map (fun l => l.audit_trail_id) ++
        (validate_issuance_period_csv csv
          REQUIRED_ISSUANCE_PERIOD_COLUMNS).audit_trail_ids := by
    intro hdup
    unfold submit_issuance
    simp only [hvalid, Bool.true_eq_false, if_false, hdup, Bool.false_eq_true]
    rw [hdata]
    simp only [Option.getD_some, List.map_append, List.map_map]
    exact congrArg (st.dedup_logs.map (fun l => l.audit_trail_id) ++ .) hids
  refine ⟨?_, hlogs_dup, hlogs_clean, ?_⟩
  · unfold submit_issuance
    simp only [hvalid, Bool.true_eq_false, if_false]
    exact ⟨_, rfl, rfl⟩
  · intro x hx
    by_cases hdup : (check_duplicates
        (validate_issuance_period_csv csv
          REQUIRED_ISSUANCE_PERIOD_COLUMNS).audit_trail_ids
        (st.dedup_logs.map (fun l => l.audit_trail_id))).has_duplicates
    · rw [hlogs_dup hdup]
    · have hdupf : (check_duplicates
          (validate_issuance_period_csv csv
            REQUIRED_ISSUANCE_PERIOD_COLUMNS).audit_trail_ids
          (st.dedup_logs.map (fun l => l.audit_trail_id))).has_duplicates = false := by
        simpa using hdup
      rw [hlogs_clean hdupf, List.count_append,
        List.count_eq_zero.mpr (check_duplicates_false_disjoint hdupf hx)]
      omega

/-- C2 witness: a valid one-row batch whose identity `x` is already in
the global index is flagged, and the index is left exactly as it was. -/
theorem submit_issuance_dedup_invariant_witness :
    (submit_issuance
      ⟨[], [⟨"x", "D0", ⟨2024, 1, 1, 0, 0, 0⟩, 1⟩], []⟩ "p"
      ⟨REQUIRED_ISSUANCE_PERIOD_COLUMNS,
       [⟨"D1", .good ⟨2024, 1, 1, 0, 0, 0⟩, ⟨5, "5.0"⟩, "x"⟩]⟩).2.dedup_logs =
      (⟨[], [⟨"x", "D0", ⟨2024, 1, 1, 0, 0, 0⟩, 1⟩], []⟩ : ServerState).dedup_logs := by
  have h := submit_issuance_dedup_invariant
    ⟨[], [⟨"x", "D0", ⟨2024, 1, 1, 0, 0, 0⟩, 1⟩], []⟩ "p"
    ⟨REQUIRED_ISSUANCE_PERIOD_COLUMNS,
     [⟨"D1", .good ⟨2024, 1, 1, 0, 0, 0⟩, ⟨5, "5.0"⟩, "x"⟩]⟩ (by decide)
  exact h.2.1 (by decide)

/-- C10: a header-only issuance CSV with every required column is
accepted: the report is valid with zero rows, zero total kWh and an empty
identity list, the dedup check on the empty batch is clean, and the
orchestrator commits a pending submission with no readings, leaving the
global identity index unchanged. -/
theorem empty_issuance_csv_accepted (st : ServerState) (path : String)
    (csv : IssuanceCsv)
    (hcols : REQUIRED_ISSUANCE_PERIOD_COLUMNS.filter
      (fun c => !(csv.cols.contains c)) = [])
    (hrows : csv.rows = []) :
    validate_issuance_period_csv csv REQUIRED_ISSUANCE_PERIOD_COLUMNS =
      { valid := true, errors := [], data := some [],
        summary := ⟨some 0, some 0, some 0, some "NaT", some "NaT"⟩,
        audit_trail_ids := [] } ∧
    (check_duplicates
      (validate_issuance_period_csv csv
        REQUIRED_ISSUANCE_PERIOD_COLUMNS).audit_trail_ids
      (st.dedup_logs.map (fun l => l.audit_trail_id))).has_duplicates = false ∧
    (submit_issuance st path csv).2.dedup_logs = st.dedup_logs ∧
    (∃ s : IssuanceSubmission,
      (submit_issuance st path csv).2.submissions = st.submissions ++ [s] ∧
      s.status = SubmissionStatus.pending ∧ s.num_readings = some 0 ∧
      s.total_kwh = some 0) := by
  obtain ⟨cols, rows⟩ := csv
  simp only at hrows
  subst hrows
  simp only at hcols
  have htsm : "timestamp" ∈ cols := by
    simpa using contains_of_filter_nil hcols (show "timestamp" ∈ _ by decide)
  have hatm : "auditTrailId" ∈ cols := by
    simpa using contains_of_filter_nil hcols (show "auditTrailId" ∈ _ by decide)
  have hkwhm : "kWh" ∈ cols := by
    simpa using contains_of_filter_nil hcols (show "kWh" ∈ _ by decide)
  have hnex : ¬∃ x ∈ REQUIRED_ISSUANCE_PERIOD_COLUMNS, x ∉ cols := by
    push_neg
    intro c hc
    simpa using contains_of_filter_nil hcols hc
  have hres : validate_issuance_period_csv ⟨cols, []⟩
      REQUIRED_ISSUANCE_PERIOD_COLUMNS =
      { valid := true, errors := [], data := some [],
        summary := ⟨some 0, some 0, some 0, some "NaT", some "NaT"⟩,
        audit_trail_ids := [] } := by
    unfold validate_issuance_period_csv
    simp [hnex, htsm, hatm, hkwhm, firstBadTs, negativeKwhRows,
      timestampGapCount, sortNat, nuniqueDevices, periodStartStr,
      periodEndStr, minTs, maxTs]
  have hdc : (check_duplicates
      ((validate_issuance_period_csv ⟨cols, []⟩
        REQUIRED_ISSUANCE_PERIOD_COLUMNS).audit_trail_ids)
      (st.dedup_logs.map (fun l => l.audit_trail_id))).has_duplicates = false := by
    rw [hres]
    simp [check_duplicates]
  refine ⟨hres, hdc, ?_, ?_⟩
  · unfold submit_issuance
    rw [hres]
    simp [check_duplicates]
  · unfold submit_issuance
    rw [hres]
    simp only [Bool.true_eq_false, if_false]
    refine ⟨_, rfl, ?_, rfl, rfl⟩
    have h0 : (check_duplicates ([] : List String)
        (st.dedup_logs.map (fun l => l.audit_trail_id))).has_duplicates = false := by
      simp [check_duplicates]
    simp [h0]

/-- C10 witness: the theorem applied to the concrete header-only CSV
against an empty server state. -/
theorem empty_issuance_csv_accepted_witness :
    (validate_issuance_period_csv ⟨REQUIRED_ISSUANCE_PERIOD_COLUMNS, []⟩
      REQUIRED_ISSUANCE_PERIOD_COLUMNS).valid = true ∧
    (submit_issuance ⟨[], [], []⟩ "p"
      ⟨REQUIRED_ISSUANCE_PERIOD_COLUMNS, []⟩).2.dedup_logs = [] := by
  have h := empty_issuance_csv_accepted ⟨[], [], []⟩ "p"
    ⟨REQUIRED_ISSUANCE_PERIOD_COLUMNS, []⟩ (by decide) rfl
  exact ⟨by rw [h.1], h.2.2.1⟩
